import Mathlib

/-!
Verification of the computational core of `color_temperature_light_mixer`
(`custom_components/color_temperature_light_mixer/helper.py`).

The helper module delegates its color science to two functions of the
`homeassistant.util.color` collaborator, `color_temperature_to_rgbww` and
`rgbww_to_color_temperature`.  Those functions are not part of the repository
source; the spec describes them as the standard dual-white mired mapping
(forward: `(kelvin, brightness, warm_kelvin, cold_kelvin) -> rgbww vector`,
inverse: `(rgbww vector, warm_kelvin, cold_kelvin) -> (kelvin, aux)`), built
on `mired = floor(1000000 / kelvin)`.  They are modelled here from that
description.  Python float division is modelled by exact rational division,
`round` by round-half-to-even, and a Python `ZeroDivisionError` by `none`.
-/

/-- Round-half-to-even on rationals: the semantics of `round` in the modelled
code (ties go to the even integer, e.g. round 0.5 = 0, round 1.5 = 2). -/
def pyRound (q : ℚ) : ℤ :=
  if Int.fract q < 1 / 2 then ⌊q⌋
  else if 1 / 2 < Int.fract q then ⌊q⌋ + 1
  else if 2 ∣ ⌊q⌋ then ⌊q⌋ else ⌊q⌋ + 1

/-- Modelled from the spec: `color_temperature_kelvin_to_mired` of the
color-science collaborator, `math.floor(1000000 / kelvin_temperature)`;
`none` models the `ZeroDivisionError` raised at kelvin 0. -/
def color_temperature_kelvin_to_mired (kelvin_temperature : ℤ) : Option ℤ :=
  if kelvin_temperature = 0 then none
  else some ⌊(1000000 : ℚ) / (kelvin_temperature : ℚ)⌋

/-- Modelled from the spec: `color_temperature_mired_to_kelvin` of the
color-science collaborator, `math.floor(1000000 / mired_temperature)` on a
float argument; `none` models the `ZeroDivisionError` raised at mired 0. -/
def color_temperature_mired_to_kelvin (mired_temperature : ℚ) : Option ℤ :=
  if mired_temperature = 0 then none
  else some ⌊(1000000 : ℚ) / mired_temperature⌋

/-- Modelled from the spec: the forward mapping `color_temperature_to_rgbww`
of the color-science collaborator.  With `max_mireds` the mired value of
`min_kelvin` and `min_mireds` that of `max_kelvin`, the cold channel is
`((max_mireds - mireds) / mired_range) * brightness` and the warm channel is
`brightness - cold`, both rounded; `none` models the `ZeroDivisionError`
raised when `mired_range` is zero or a kelvin argument is zero. -/
def color_temperature_to_rgbww (temperature brightness min_kelvin max_kelvin : ℤ) :
    Option (ℤ × ℤ × ℤ × ℤ × ℤ) :=
  match color_temperature_kelvin_to_mired min_kelvin,
      color_temperature_kelvin_to_mired max_kelvin,
      color_temperature_kelvin_to_mired temperature with
  | some max_mireds, some min_mireds, some mireds =>
    let mired_range : ℤ := max_mireds - min_mireds
    if mired_range = 0 then none
    else
      let cold : ℚ := ((max_mireds : ℚ) - (mireds : ℚ)) / (mired_range : ℚ) * (brightness : ℚ)
      let warm : ℚ := (brightness : ℚ) - cold
      some (0, 0, 0, pyRound cold, pyRound warm)
  | _, _, _ => none

/-- Modelled from the spec: `while_levels_to_color_temperature` of the
color-science collaborator, the inverse mapping from cold/warm channel levels
to a color temperature.  When both levels are zero it returns
`(min_kelvin, 0)`; otherwise the mired value of the mix is interpolated from
the cold fraction and converted back to kelvin. -/
def while_levels_to_color_temperature (cold warm min_kelvin max_kelvin : ℤ) :
    Option (ℤ × ℤ) :=
  match color_temperature_kelvin_to_mired min_kelvin,
      color_temperature_kelvin_to_mired max_kelvin with
  | some max_mireds, some min_mireds =>
    let brightness : ℚ := (warm : ℚ) / 255 + (cold : ℚ) / 255
    if brightness = 0 then some (min_kelvin, 0)
    else
      match color_temperature_mired_to_kelvin
          ((cold : ℚ) / 255 / brightness * ((min_mireds : ℚ) - (max_mireds : ℚ))
            + (max_mireds : ℚ)) with
      | some kelvin => some (kelvin, min 255 (pyRound (brightness * 255)))
      | none => none
  | _, _ => none

/-- Modelled from the spec: `rgbww_to_color_temperature` of the color-science
collaborator; it drops the rgb channels and delegates to
`while_levels_to_color_temperature`. -/
def rgbww_to_color_temperature (rgbww : ℤ × ℤ × ℤ × ℤ × ℤ) (min_kelvin max_kelvin : ℤ) :
    Option (ℤ × ℤ) :=
  while_levels_to_color_temperature rgbww.2.2.2.1 rgbww.2.2.2.2 min_kelvin max_kelvin

/-- `BRIGHTNESS_RANGE = (1, 255)` from `helper.py`. -/
def BRIGHTNESS_RANGE : ℤ × ℤ := (1, 255)

/-- The `BrightnessTemperaturePriority` enum of `helper.py`. -/
inductive BrightnessTemperaturePriority where
  | BRIGHTNESS
  | TEMPERATURE
  | MIXED
deriving DecidableEq

/-- The `TemperatureCalculator` dataclass of `helper.py`. -/
structure TemperatureCalculator where
  warm_brightness : ℤ
  warm_temperature_kelvin : ℤ
  cold_brightness : ℤ
  cold_temperature_kelvin : ℤ
deriving DecidableEq

/-- `TemperatureCalculator.current_temperature` from `helper.py`: the inverse
mapping applied to the channel vector `(0, 0, 0, cold, warm)`, clamped into
`[warm_temperature_kelvin, cold_temperature_kelvin]`; `none` models an
uncaught exception from the collaborator. -/
def TemperatureCalculator.current_temperature (self : TemperatureCalculator) : Option ℤ :=
  match rgbww_to_color_temperature
      (0, 0, 0, self.cold_brightness, self.warm_brightness)
      self.warm_temperature_kelvin self.cold_temperature_kelvin with
  | some (combined_temperature, _) =>
    some (max self.warm_temperature_kelvin
      (min self.cold_temperature_kelvin combined_temperature))
  | none => none

/-- The `BrightnessCalculator` dataclass of `helper.py`. -/
structure BrightnessCalculator where
  warm_temperature_kelvin : ℤ
  cold_temperature_kelvin : ℤ
  target_temperature_kelvin : ℤ
  target_brightness : ℤ
  priority : BrightnessTemperaturePriority := .MIXED
deriving DecidableEq

/-- `BrightnessCalculator.compute_brightnesses` from `helper.py`: take the
cold/warm channels of the forward mapping, clamp each to at most
`BRIGHTNESS_RANGE[1] = 255`, round, and return `(warm, cold)`; `none` models
an uncaught exception from the collaborator.  The `priority` field is only
logged, never read by the computation. -/
def BrightnessCalculator.compute_brightnesses (self : BrightnessCalculator) :
    Option (ℤ × ℤ) :=
  match color_temperature_to_rgbww self.target_temperature_kelvin
      self.target_brightness self.warm_temperature_kelvin
      self.cold_temperature_kelvin with
  | some (_, _, _, cold_brightness, warm_brightness) =>
    let warm_brightness := min warm_brightness BRIGHTNESS_RANGE.2
    let cold_brightness := min cold_brightness BRIGHTNESS_RANGE.2
    some (pyRound (warm_brightness : ℚ), pyRound (cold_brightness : ℚ))
  | none => none

/-- The mired value `floor(1000000 / k)` of a nonzero kelvin value, as a
total function (used to state properties of the two functions above). -/
def miredOf (k : ℤ) : ℤ := ⌊(1000000 : ℚ) / (k : ℚ)⌋

/-- The exact (pre-rounding) cold-channel intensity produced by the forward
mapping for references `w < c`, target temperature `T` and brightness `B`. -/
def coldChannelQ (w c T B : ℤ) : ℚ :=
  ((miredOf w : ℚ) - (miredOf T : ℚ)) / ((miredOf w - miredOf c : ℤ) : ℚ) * (B : ℚ)

/-- Feed the output of `BrightnessCalculator.compute_brightnesses` back into
`TemperatureCalculator.current_temperature` with the same references. -/
def roundTripTemperature (w c T B : ℤ) : Option ℤ :=
  match BrightnessCalculator.compute_brightnesses ⟨w, c, T, B, .MIXED⟩ with
  | some (wb, cb) => TemperatureCalculator.current_temperature ⟨wb, w, cb, c⟩
  | none => none

/-- Boolean check that the round trip at `(w, c, T, B)` succeeds and lands
within `tol` kelvin of the target `T`. -/
def roundTripWithin (w c B tol T : ℤ) : Bool :=
  match roundTripTemperature w c T B with
  | some r => decide (|r - T| ≤ tol)
  | none => false

/-! ### Basic facts about `pyRound` -/

theorem pyRound_eq_floor_or (q : ℚ) : pyRound q = ⌊q⌋ ∨ pyRound q = ⌊q⌋ + 1 := by
  unfold pyRound
  split_ifs <;> simp

theorem sub_half_le_pyRound (q : ℚ) : q - 1 / 2 ≤ (pyRound q : ℚ) := by
  have h1 := Int.fract_lt_one q
  have hf : q - Int.fract q = (⌊q⌋ : ℚ) := Int.self_sub_fract q
  unfold pyRound
  split_ifs with ha hb hc <;> push_cast <;> [linarith; linarith; linarith; linarith]

theorem pyRound_le_add_half (q : ℚ) : (pyRound q : ℚ) ≤ q + 1 / 2 := by
  have h0 := Int.fract_nonneg q
  have hf : q - Int.fract q = (⌊q⌋ : ℚ) := Int.self_sub_fract q
  unfold pyRound
  split_ifs with ha hb hc <;> push_cast <;> [linarith; linarith; linarith; linarith]

theorem floor_le_pyRound (q : ℚ) : ⌊q⌋ ≤ pyRound q := by
  rcases pyRound_eq_floor_or q with h | h <;> omega

theorem pyRound_intCast (n : ℤ) : pyRound (n : ℚ) = n := by
  have h : Int.fract (n : ℚ) = 0 := Int.fract_intCast n
  unfold pyRound
  rw [h]
  norm_num

theorem pyRound_mono {a b : ℚ} (hab : a ≤ b) : pyRound a ≤ pyRound b := by
  by_contra hcon
  push_neg at hcon
  have h1 : (pyRound a : ℚ) ≤ a + 1 / 2 := pyRound_le_add_half a
  have h2 : b - 1 / 2 ≤ (pyRound b : ℚ) := sub_half_le_pyRound b
  have h3 : pyRound b + 1 ≤ pyRound a := hcon
  have h4 : pyRound a ≤ pyRound b + 1 := by
    have h4q : (pyRound a : ℚ) ≤ (pyRound b : ℚ) + 1 := by linarith
    exact_mod_cast h4q
  have h5 : pyRound a = pyRound b + 1 := le_antisymm h4 h3
  have h5q : (pyRound a : ℚ) = (pyRound b : ℚ) + 1 := by exact_mod_cast h5
  have h6 := sub_half_le_pyRound a
  have h7 := pyRound_le_add_half b
  have hba : b ≤ a := by linarith
  have heq : a = b := le_antisymm hba hab ▸ rfl
  rw [heq] at h5
  omega

theorem pyRound_le_of_le_int {q : ℚ} {n : ℤ} (h : q ≤ (n : ℚ)) : pyRound q ≤ n := by
  have h1 : (pyRound q : ℚ) ≤ (n : ℚ) + 1 / 2 := le_trans (pyRound_le_add_half q) (by linarith)
  have h2 : (pyRound q : ℚ) < ((n + 1 : ℤ) : ℚ) := by push_cast; linarith
  have h3 : pyRound q < n + 1 := by exact_mod_cast h2
  omega

theorem le_pyRound_of_int_le {q : ℚ} {n : ℤ} (h : (n : ℚ) ≤ q) : n ≤ pyRound q := by
  have h1 : n ≤ ⌊q⌋ := Int.le_floor.mpr h
  have h2 := floor_le_pyRound q
  omega

theorem pyRound_add_pyRound_compl (B : ℤ) (x : ℚ) :
    |pyRound ((B : ℚ) - x) + pyRound x - B| ≤ 1 := by
  have h1 := sub_half_le_pyRound x
  have h2 := pyRound_le_add_half x
  have h3 := sub_half_le_pyRound ((B : ℚ) - x)
  have h4 := pyRound_le_add_half ((B : ℚ) - x)
  rw [abs_le]
  constructor
  · have hq : (-1 : ℚ) ≤ (pyRound ((B : ℚ) - x) : ℚ) + (pyRound x : ℚ) - (B : ℚ) := by
      linarith
    exact_mod_cast hq
  · have hq : (pyRound ((B : ℚ) - x) : ℚ) + (pyRound x : ℚ) - (B : ℚ) ≤ 1 := by
      linarith
    exact_mod_cast hq

/-! ### Basic facts about mired values -/

theorem color_temperature_kelvin_to_mired_eq {k : ℤ} (hk : k ≠ 0) :
    color_temperature_kelvin_to_mired k = some (miredOf k) := by
  unfold color_temperature_kelvin_to_mired miredOf
  rw [if_neg hk]

theorem one_le_miredOf {k : ℤ} (h1 : 1 ≤ k) (h2 : k ≤ 1000000) : 1 ≤ miredOf k := by
  unfold miredOf
  rw [Int.le_floor]
  have hk : (0 : ℚ) < (k : ℚ) := by exact_mod_cast lt_of_lt_of_le one_pos h1
  rw [show ((1 : ℤ) : ℚ) = 1 by norm_num, one_le_div hk]
  exact_mod_cast h2

theorem miredOf_antitone {j k : ℤ} (h1 : 1 ≤ j) (h2 : j ≤ k) : miredOf k ≤ miredOf j := by
  unfold miredOf
  apply Int.floor_le_floor
  have hj : (0 : ℚ) < (j : ℚ) := by exact_mod_cast lt_of_lt_of_le one_pos h1
  have h2q : (j : ℚ) ≤ (k : ℚ) := by exact_mod_cast h2
  exact div_le_div_of_nonneg_left (by norm_num) hj h2q

/-! ### Characterization of the forward mapping and `compute_brightnesses` -/

theorem color_temperature_to_rgbww_eq {T B w c : ℤ}
    (hw : w ≠ 0) (hc : c ≠ 0) (hT : T ≠ 0) (hr : miredOf w - miredOf c ≠ 0) :
    color_temperature_to_rgbww T B w c =
      some (0, 0, 0, pyRound (coldChannelQ w c T B),
        pyRound ((B : ℚ) - coldChannelQ w c T B)) := by
  simp only [color_temperature_to_rgbww, color_temperature_kelvin_to_mired_eq hw,
    color_temperature_kelvin_to_mired_eq hc, color_temperature_kelvin_to_mired_eq hT]
  rw [if_neg hr]
  rfl

theorem coldChannelQ_mem {w c T B : ℤ} (hw : 1 ≤ w) (hwT : w ≤ T) (hTc : T ≤ c)
    (hm : miredOf c ≠ miredOf w) (hB : 0 ≤ B) :
    0 ≤ coldChannelQ w c T B ∧ coldChannelQ w c T B ≤ (B : ℚ) := by
  have hT1 : 1 ≤ T := le_trans hw hwT
  have hmwT : miredOf T ≤ miredOf w := miredOf_antitone hw hwT
  have hmTc : miredOf c ≤ miredOf T := miredOf_antitone hT1 hTc
  have hmwc : miredOf c < miredOf w :=
    lt_of_le_of_ne (le_trans hmTc hmwT) hm
  have hden : (0 : ℚ) < ((miredOf w - miredOf c : ℤ) : ℚ) := by
    exact_mod_cast Int.sub_pos.mpr hmwc
  have hnum0 : (0 : ℚ) ≤ (miredOf w : ℚ) - (miredOf T : ℚ) := by
    have hsub := Int.sub_nonneg.mpr hmwT
    exact_mod_cast hsub
  have hnum1 : (miredOf w : ℚ) - (miredOf T : ℚ) ≤ ((miredOf w - miredOf c : ℤ) : ℚ) := by
    push_cast
    have : (miredOf c : ℚ) ≤ (miredOf T : ℚ) := by exact_mod_cast hmTc
    linarith
  have hBq : (0 : ℚ) ≤ (B : ℚ) := by exact_mod_cast hB
  constructor
  · exact mul_nonneg (div_nonneg hnum0 (le_of_lt hden)) hBq
  · unfold coldChannelQ
    have hfrac : ((miredOf w : ℚ) - (miredOf T : ℚ)) / ((miredOf w - miredOf c : ℤ) : ℚ) ≤ 1 :=
      (div_le_one hden).mpr hnum1
    calc ((miredOf w : ℚ) - (miredOf T : ℚ)) / ((miredOf w - miredOf c : ℤ) : ℚ) * (B : ℚ)
        ≤ 1 * (B : ℚ) := mul_le_mul_of_nonneg_right hfrac hBq
      _ = (B : ℚ) := one_mul _

theorem compute_brightnesses_eq {w c T B : ℤ} (p : BrightnessTemperaturePriority)
    (hw : 1 ≤ w) (hwT : w ≤ T) (hTc : T ≤ c) (hm : miredOf c ≠ miredOf w)
    (hB1 : 1 ≤ B) (hB2 : B ≤ 255) :
    BrightnessCalculator.compute_brightnesses ⟨w, c, T, B, p⟩ =
      some (pyRound ((B : ℚ) - coldChannelQ w c T B), pyRound (coldChannelQ w c T B)) := by
  have hw0 : w ≠ 0 := by omega
  have hc0 : c ≠ 0 := by omega
  have hT0 : T ≠ 0 := by
    have := le_trans hw hwT
    omega
  have hr : miredOf w - miredOf c ≠ 0 := by
    have hlt := lt_of_le_of_ne (miredOf_antitone hw (le_trans hwT hTc)) hm
    omega
  obtain ⟨hq0, hqB⟩ := coldChannelQ_mem hw hwT hTc hm (show (0 : ℤ) ≤ B by omega)
  have hB2q : (B : ℚ) ≤ ((255 : ℤ) : ℚ) := by exact_mod_cast hB2
  have hcold255 : pyRound (coldChannelQ w c T B) ≤ 255 :=
    pyRound_le_of_le_int (le_trans hqB hB2q)
  have hwarm255 : pyRound ((B : ℚ) - coldChannelQ w c T B) ≤ 255 :=
    pyRound_le_of_le_int (le_trans (by linarith) hB2q)
  simp only [BrightnessCalculator.compute_brightnesses,
    color_temperature_to_rgbww_eq hw0 hc0 hT0 hr]
  simp only [BRIGHTNESS_RANGE]
  rw [min_eq_left hwarm255, min_eq_left hcold255, pyRound_intCast, pyRound_intCast]

/-! ### Totality and clamp range of `current_temperature` -/

theorem color_temperature_mired_to_kelvin_eq {m : ℚ} (hm : m ≠ 0) :
    color_temperature_mired_to_kelvin m = some ⌊(1000000 : ℚ) / m⌋ := by
  unfold color_temperature_mired_to_kelvin
  rw [if_neg hm]

theorem while_levels_some {wb cb w c : ℤ} (hw : 1 ≤ w) (hwc : w ≤ c) (hc : c ≤ 1000000)
    (hwb : 0 ≤ wb) (hcb : 0 ≤ cb) :
    ∃ pr : ℤ × ℤ, while_levels_to_color_temperature cb wb w c = some pr := by
  have hw0 : w ≠ 0 := by omega
  have hc0 : c ≠ 0 := by omega
  have hwbq : (0 : ℚ) ≤ (wb : ℚ) := by exact_mod_cast hwb
  have hcbq : (0 : ℚ) ≤ (cb : ℚ) := by exact_mod_cast hcb
  have hsum : (0 : ℚ) ≤ (wb : ℚ) / 255 + (cb : ℚ) / 255 :=
    add_nonneg (div_nonneg hwbq (by norm_num)) (div_nonneg hcbq (by norm_num))
  by_cases hbr : (wb : ℚ) / 255 + (cb : ℚ) / 255 = 0
  · simp only [while_levels_to_color_temperature, color_temperature_kelvin_to_mired_eq hw0,
      color_temperature_kelvin_to_mired_eq hc0, if_pos hbr]
    exact ⟨_, rfl⟩
  · have hbrpos : 0 < (wb : ℚ) / 255 + (cb : ℚ) / 255 := lt_of_le_of_ne hsum (Ne.symm hbr)
    have ht0 : 0 ≤ (cb : ℚ) / 255 / ((wb : ℚ) / 255 + (cb : ℚ) / 255) :=
      div_nonneg (div_nonneg hcbq (by norm_num)) (le_of_lt hbrpos)
    have ht1 : (cb : ℚ) / 255 / ((wb : ℚ) / 255 + (cb : ℚ) / 255) ≤ 1 := by
      rw [div_le_one hbrpos]
      have hwb255 : (0 : ℚ) ≤ (wb : ℚ) / 255 := div_nonneg hwbq (by norm_num)
      linarith
    have hmc1 : (1 : ℚ) ≤ (miredOf c : ℚ) := by
      exact_mod_cast one_le_miredOf (le_trans hw hwc) hc
    have hmcw : (miredOf c : ℚ) ≤ (miredOf w : ℚ) := by
      exact_mod_cast miredOf_antitone hw hwc
    have hkey : (miredOf c : ℚ) - (miredOf w : ℚ) ≤
        (cb : ℚ) / 255 / ((wb : ℚ) / 255 + (cb : ℚ) / 255) *
          ((miredOf c : ℚ) - (miredOf w : ℚ)) := by
      nlinarith [mul_nonneg (sub_nonneg.mpr ht1) (sub_nonneg.mpr hmcw)]
    have hm0 : (cb : ℚ) / 255 / ((wb : ℚ) / 255 + (cb : ℚ) / 255) *
        ((miredOf c : ℚ) - (miredOf w : ℚ)) + (miredOf w : ℚ) ≠ 0 := by
      intro hzero
      nlinarith
    simp only [while_levels_to_color_temperature, color_temperature_kelvin_to_mired_eq hw0,
      color_temperature_kelvin_to_mired_eq hc0, if_neg hbr,
      color_temperature_mired_to_kelvin_eq hm0]
    exact ⟨_, rfl⟩

theorem current_temperature_mem {wb cb w c : ℤ} (hw : 1 ≤ w) (hwc : w < c)
    (hc : c ≤ 1000000) (hwb : 0 ≤ wb) (hcb : 0 ≤ cb) :
    ∃ r, TemperatureCalculator.current_temperature ⟨wb, w, cb, c⟩ = some r ∧
      w ≤ r ∧ r ≤ c := by
  obtain ⟨⟨r0, aux⟩, hwl⟩ := while_levels_some hw (le_of_lt hwc) hc hwb hcb
  have hrg : rgbww_to_color_temperature (0, 0, 0, cb, wb) w c = some (r0, aux) := hwl
  refine ⟨max w (min c r0), ?_, le_max_left _ _, max_le (le_of_lt hwc) (min_le_left _ _)⟩
  simp only [TemperatureCalculator.current_temperature, hrg]

/-! ### The claims -/

/-- C1: for every pair of reference color temperatures with
`1 ≤ warm_temperature_kelvin < cold_temperature_kelvin ≤ 10^6` and every pair
of brightness values in `[1, 255] × [1, 255]`,
`TemperatureCalculator.current_temperature` returns a value within the closed
interval `[warm_temperature_kelvin, cold_temperature_kelvin]`. -/
theorem current_temperature_clamp_invariant {wb cb w c : ℤ}
    (hw : 1 ≤ w) (hwc : w < c) (hc : c ≤ 1000000)
    (hwb1 : 1 ≤ wb) (_hwb2 : wb ≤ 255) (hcb1 : 1 ≤ cb) (_hcb2 : cb ≤ 255) :
    ∃ r, TemperatureCalculator.current_temperature ⟨wb, w, cb, c⟩ = some r ∧
      w ≤ r ∧ r ≤ c :=
  current_temperature_mem hw hwc hc (by omega) (by omega)

/-- Witness for C1 at `(warm, cold) = (2700, 6500)` and brightnesses
`(100, 200)`. -/
theorem current_temperature_clamp_invariant_witness :
    (1 ≤ (2700 : ℤ)) ∧ (2700 : ℤ) < 6500 ∧ (6500 : ℤ) ≤ 1000000 ∧
      (1 ≤ (100 : ℤ)) ∧ (100 : ℤ) ≤ 255 ∧ (1 ≤ (200 : ℤ)) ∧ (200 : ℤ) ≤ 255 ∧
      ∃ r, TemperatureCalculator.current_temperature ⟨100, 2700, 200, 6500⟩ = some r ∧
        2700 ≤ r ∧ r ≤ 6500 :=
  ⟨by decide, by decide, by decide, by decide, by decide, by decide, by decide,
    current_temperature_clamp_invariant (by decide) (by decide) (by decide)
      (by decide) (by decide) (by decide) (by decide)⟩

/-- C10: for every pair of reference color temperatures with
`1 ≤ warm < cold ≤ 10^6` and every pair of non-negative brightness inputs,
including out-of-range values such as `(0, 0)`,
`TemperatureCalculator.current_temperature` still returns without error a
value within `[warm, cold]`. -/
theorem current_temperature_robust_out_of_range {wb cb w c : ℤ}
    (hw : 1 ≤ w) (hwc : w < c) (hc : c ≤ 1000000)
    (hwb : 0 ≤ wb) (hcb : 0 ≤ cb) :
    ∃ r, TemperatureCalculator.current_temperature ⟨wb, w, cb, c⟩ = some r ∧
      w ≤ r ∧ r ≤ c :=
  current_temperature_mem hw hwc hc hwb hcb

/-- Witness for C10 at the unvalidated input `(0, 0)`. -/
theorem current_temperature_robust_out_of_range_witness :
    (1 ≤ (2700 : ℤ)) ∧ (2700 : ℤ) < 6500 ∧ (6500 : ℤ) ≤ 1000000 ∧
      (0 ≤ (0 : ℤ)) ∧ (0 ≤ (0 : ℤ)) ∧
      ∃ r, TemperatureCalculator.current_temperature ⟨0, 2700, 0, 6500⟩ = some r ∧
        2700 ≤ r ∧ r ≤ 6500 :=
  ⟨by decide, by decide, by decide, by decide, by decide,
    current_temperature_robust_out_of_range (by decide) (by decide) (by decide)
      (by decide) (by decide)⟩

/-- C4: the `priority` argument does not alter the result of
`BrightnessCalculator.compute_brightnesses`: any two priorities give the same
output on the same `(warm, cold, target temperature, target brightness)`. -/
theorem compute_brightnesses_priority_noninterference (w c T B : ℤ)
    (p q : BrightnessTemperaturePriority) :
    BrightnessCalculator.compute_brightnesses ⟨w, c, T, B, p⟩ =
      BrightnessCalculator.compute_brightnesses ⟨w, c, T, B, q⟩ := rfl

/-- C2 counterexample: at `warm = target = 2700`, `cold = 6500`,
`target_brightness = 200` — a valid input — the cold component returned is
`0`, outside the claimed closed range `[1, 255]`. -/
theorem compute_brightnesses_lower_bound_counterexample :
    (2700 : ℤ) < 6500 ∧ (2700 : ℤ) ≤ 2700 ∧ (2700 : ℤ) ≤ 6500 ∧
      (1 : ℤ) ≤ 200 ∧ (200 : ℤ) ≤ 255 ∧
      BrightnessCalculator.compute_brightnesses ⟨2700, 6500, 2700, 200, .MIXED⟩ =
        some (200, 0) ∧ ¬(1 ≤ (0 : ℤ)) := by with_unfolding_all decide

/-- C2 (amended): for valid inputs whose two references occupy distinct mired
buckets, both components of the returned pair are integers in `[0, 255]` —
the upper bound is clamped, but the lower bound of the documented brightness
range `[1, 255]` can be violated (the cold component can be 0). -/
theorem compute_brightnesses_mem_0_255 {w c T B : ℤ} (p : BrightnessTemperaturePriority)
    (hw : 1 ≤ w) (_hwc : w < c) (hTw : w ≤ T) (hTc : T ≤ c)
    (hB1 : 1 ≤ B) (hB2 : B ≤ 255) (hm : miredOf c ≠ miredOf w) :
    ∀ wb cb, BrightnessCalculator.compute_brightnesses ⟨w, c, T, B, p⟩ = some (wb, cb) →
      0 ≤ wb ∧ wb ≤ 255 ∧ 0 ≤ cb ∧ cb ≤ 255 := by
  intro wb cb h
  rw [compute_brightnesses_eq p hw hTw hTc hm hB1 hB2,
    Option.some.injEq, Prod.mk.injEq] at h
  obtain ⟨rfl, rfl⟩ := h
  obtain ⟨hq0, hqB⟩ := coldChannelQ_mem hw hTw hTc hm (show (0 : ℤ) ≤ B by omega)
  have hB2q : (B : ℚ) ≤ ((255 : ℤ) : ℚ) := by exact_mod_cast hB2
  have h0q : ((0 : ℤ) : ℚ) ≤ coldChannelQ w c T B := by exact_mod_cast hq0
  have h0w : ((0 : ℤ) : ℚ) ≤ (B : ℚ) - coldChannelQ w c T B := by
    push_cast
    linarith
  refine ⟨le_pyRound_of_int_le h0w, pyRound_le_of_le_int (le_trans (by linarith) hB2q),
    le_pyRound_of_int_le h0q, pyRound_le_of_le_int (le_trans hqB hB2q)⟩

/-- Witness for the amended C2 at `(2700, 6500, 4600, 255)`. -/
theorem compute_brightnesses_mem_0_255_witness :
    (1 ≤ (2700 : ℤ)) ∧ (2700 : ℤ) < 6500 ∧ (2700 : ℤ) ≤ 4600 ∧ (4600 : ℤ) ≤ 6500 ∧
      (1 : ℤ) ≤ 255 ∧ (255 : ℤ) ≤ 255 ∧ miredOf 6500 ≠ miredOf 2700 ∧
      (∀ wb cb,
        BrightnessCalculator.compute_brightnesses ⟨2700, 6500, 4600, 255, .MIXED⟩ =
          some (wb, cb) → 0 ≤ wb ∧ wb ≤ 255 ∧ 0 ≤ cb ∧ cb ≤ 255) :=
  ⟨by decide, by decide, by decide, by decide, by decide, by decide,
    by with_unfolding_all decide,
    compute_brightnesses_mem_0_255 .MIXED (by decide) (by decide) (by decide)
      (by decide) (by decide) (by decide) (by with_unfolding_all decide)⟩

/-- C5: at the warm boundary (`target temperature = warm reference = 2700`,
target brightness 200, any cold reference above 2700 in a distinct mired
bucket) the warm component is exactly the target brightness 200 and the cold
component is 0 — within 1 of the claimed `(≈200, ≈1)`. -/
theorem compute_brightnesses_warm_boundary {c : ℤ} (p : BrightnessTemperaturePriority)
    (hc1 : 2700 < c) (hm : miredOf c ≠ miredOf 2700) :
    BrightnessCalculator.compute_brightnesses ⟨2700, c, 2700, 200, p⟩ = some (200, 0) ∧
      |(200 : ℤ) - 200| ≤ 1 ∧ |(0 : ℤ) - 1| ≤ 1 := by
  refine ⟨?_, by decide, by decide⟩
  rw [compute_brightnesses_eq p (by norm_num) (le_refl 2700) (le_of_lt hc1) hm
    (by norm_num) (by norm_num)]
  have hcold : coldChannelQ 2700 c 2700 200 = 0 := by
    unfold coldChannelQ
    rw [sub_self, zero_div, zero_mul]
  rw [hcold, sub_zero]
  have h200 : pyRound ((200 : ℤ) : ℚ) = 200 := pyRound_intCast 200
  have h0 : pyRound (0 : ℚ) = 0 := by with_unfolding_all decide
  rw [h200, h0]

/-- Witness for C5 at cold reference 6500. -/
theorem compute_brightnesses_warm_boundary_witness :
    (2700 : ℤ) < 6500 ∧ miredOf 6500 ≠ miredOf 2700 ∧
      (BrightnessCalculator.compute_brightnesses ⟨2700, 6500, 2700, 200, .MIXED⟩ =
          some (200, 0) ∧
        |(200 : ℤ) - 200| ≤ 1 ∧ |(0 : ℤ) - 1| ≤ 1) :=
  ⟨by decide, by with_unfolding_all decide,
    compute_brightnesses_warm_boundary .MIXED (by decide)
      (by with_unfolding_all decide)⟩

/-- C6 counterexample: `warm = 1997 < cold = 1998` with target temperature
1997 and brightness 200 satisfies every documented precondition, yet
`compute_brightnesses` raises (`none`): both references floor to the same
mired value 500, so the mapping divides by zero. -/
theorem no_exception_counterexample :
    (1 ≤ (1997 : ℤ)) ∧ (1997 : ℤ) < 1998 ∧ (1997 : ℤ) ≤ 1997 ∧ (1997 : ℤ) ≤ 1998 ∧
      (1 : ℤ) ≤ 200 ∧ (200 : ℤ) ≤ 255 ∧
      BrightnessCalculator.compute_brightnesses ⟨1997, 1998, 1997, 200, .MIXED⟩ =
        none := by with_unfolding_all decide

/-- C6 (amended): under the documented normal inputs and the additional
proviso that the two references occupy distinct mired buckets (and are
physical kelvin values, `1 ≤ warm < cold ≤ 10^6`), both
`current_temperature` and `compute_brightnesses` return a value (the error
branch is unreachable). -/
theorem no_exception_totality {w c T B wb cb : ℤ} (p : BrightnessTemperaturePriority)
    (hw : 1 ≤ w) (hwc : w < c) (hc : c ≤ 1000000)
    (hwb1 : 1 ≤ wb) (_hwb2 : wb ≤ 255) (hcb1 : 1 ≤ cb) (_hcb2 : cb ≤ 255)
    (hTw : w ≤ T) (hTc : T ≤ c) (hB1 : 1 ≤ B) (hB2 : B ≤ 255)
    (hm : miredOf c ≠ miredOf w) :
    (TemperatureCalculator.current_temperature ⟨wb, w, cb, c⟩).isSome ∧
      (BrightnessCalculator.compute_brightnesses ⟨w, c, T, B, p⟩).isSome := by
  constructor
  · obtain ⟨r, hr, _⟩ := current_temperature_mem hw hwc hc
      (show (0 : ℤ) ≤ wb by omega) (show (0 : ℤ) ≤ cb by omega)
    rw [hr]
    rfl
  · rw [compute_brightnesses_eq p hw hTw hTc hm hB1 hB2]
    rfl

/-- Witness for the amended C6. -/
theorem no_exception_totality_witness :
    (1 ≤ (2700 : ℤ)) ∧ (2700 : ℤ) < 6500 ∧ (6500 : ℤ) ≤ 1000000 ∧
      (1 ≤ (10 : ℤ)) ∧ (10 : ℤ) ≤ 255 ∧ (1 ≤ (20 : ℤ)) ∧ (20 : ℤ) ≤ 255 ∧
      (2700 : ℤ) ≤ 4000 ∧ (4000 : ℤ) ≤ 6500 ∧ (1 : ℤ) ≤ 128 ∧ (128 : ℤ) ≤ 255 ∧
      miredOf 6500 ≠ miredOf 2700 ∧
      ((TemperatureCalculator.current_temperature ⟨10, 2700, 20, 6500⟩).isSome ∧
        (BrightnessCalculator.compute_brightnesses
          ⟨2700, 6500, 4000, 128, .MIXED⟩).isSome) :=
  ⟨by decide, by decide, by decide, by decide, by decide, by decide, by decide,
    by decide, by decide, by decide, by decide, by with_unfolding_all decide,
    no_exception_totality .MIXED (by decide) (by decide) (by decide) (by decide)
      (by decide) (by decide) (by decide) (by decide) (by decide) (by decide)
      (by decide) (by with_unfolding_all decide)⟩

/-- C8: the two brightness values returned by `compute_brightnesses` sum to
the target brightness up to rounding (their sum differs from
`target_brightness` by at most 1). -/
theorem compute_brightnesses_sum_conservation {w c T B : ℤ}
    (p : BrightnessTemperaturePriority) (hw : 1 ≤ w) (_hwc : w < c)
    (hTw : w ≤ T) (hTc : T ≤ c) (hB1 : 1 ≤ B) (hB2 : B ≤ 255)
    (hm : miredOf c ≠ miredOf w) :
    ∀ wb cb, BrightnessCalculator.compute_brightnesses ⟨w, c, T, B, p⟩ = some (wb, cb) →
      |wb + cb - B| ≤ 1 := by
  intro wb cb h
  rw [compute_brightnesses_eq p hw hTw hTc hm hB1 hB2,
    Option.some.injEq, Prod.mk.injEq] at h
  obtain ⟨rfl, rfl⟩ := h
  exact pyRound_add_pyRound_compl B (coldChannelQ w c T B)

/-- Witness for C8 at `(2700, 6500, 4600, 255)`. -/
theorem compute_brightnesses_sum_conservation_witness :
    (1 ≤ (2700 : ℤ)) ∧ (2700 : ℤ) < 6500 ∧ (2700 : ℤ) ≤ 4600 ∧ (4600 : ℤ) ≤ 6500 ∧
      (1 : ℤ) ≤ 255 ∧ (255 : ℤ) ≤ 255 ∧ miredOf 6500 ≠ miredOf 2700 ∧
      (∀ wb cb,
        BrightnessCalculator.compute_brightnesses ⟨2700, 6500, 4600, 255, .MIXED⟩ =
          some (wb, cb) → |wb + cb - 255| ≤ 1) :=
  ⟨by decide, by decide, by decide, by decide, by decide, by decide,
    by with_unfolding_all decide,
    compute_brightnesses_sum_conservation .MIXED (by decide) (by decide) (by decide)
      (by decide) (by decide) (by decide) (by with_unfolding_all decide)⟩

/-- C9: with the references and the target brightness fixed, the cold
component of `compute_brightnesses` is non-decreasing and the warm component
non-increasing as the target temperature increases within `[warm, cold]`. -/
theorem compute_brightnesses_monotone {w c B T1 T2 : ℤ}
    (p q : BrightnessTemperaturePriority) (hw : 1 ≤ w) (_hwc : w < c)
    (hT1w : w ≤ T1) (hT12 : T1 ≤ T2) (hT2c : T2 ≤ c) (hB1 : 1 ≤ B) (hB2 : B ≤ 255)
    (hm : miredOf c ≠ miredOf w) :
    ∀ wb1 cb1 wb2 cb2,
      BrightnessCalculator.compute_brightnesses ⟨w, c, T1, B, p⟩ = some (wb1, cb1) →
      BrightnessCalculator.compute_brightnesses ⟨w, c, T2, B, q⟩ = some (wb2, cb2) →
      cb1 ≤ cb2 ∧ wb2 ≤ wb1 := by
  intro wb1 cb1 wb2 cb2 h1 h2
  rw [compute_brightnesses_eq p hw hT1w (le_trans hT12 hT2c) hm hB1 hB2,
    Option.some.injEq, Prod.mk.injEq] at h1
  rw [compute_brightnesses_eq q hw (le_trans hT1w hT12) hT2c hm hB1 hB2,
    Option.some.injEq, Prod.mk.injEq] at h2
  obtain ⟨rfl, rfl⟩ := h1
  obtain ⟨rfl, rfl⟩ := h2
  have hmono : coldChannelQ w c T1 B ≤ coldChannelQ w c T2 B := by
    unfold coldChannelQ
    have hm21 : miredOf T2 ≤ miredOf T1 := miredOf_antitone (le_trans hw hT1w) hT12
    have hmwc : miredOf c < miredOf w :=
      lt_of_le_of_ne (miredOf_antitone hw (le_trans hT1w (le_trans hT12 hT2c))) hm
    have hden : (0 : ℚ) < ((miredOf w - miredOf c : ℤ) : ℚ) := by
      exact_mod_cast Int.sub_pos.mpr hmwc
    have hBq : (0 : ℚ) ≤ (B : ℚ) := by
      have hB0 : (0 : ℤ) ≤ B := by omega
      exact_mod_cast hB0
    have hnum : (miredOf w : ℚ) - (miredOf T1 : ℚ) ≤ (miredOf w : ℚ) - (miredOf T2 : ℚ) := by
      have hm21q : (miredOf T2 : ℚ) ≤ (miredOf T1 : ℚ) := by exact_mod_cast hm21
      linarith
    exact mul_le_mul_of_nonneg_right ((div_le_div_iff_of_pos_right hden).mpr hnum) hBq
  constructor
  · exact pyRound_mono hmono
  · exact pyRound_mono (by linarith)

/-- Witness for C9 at temperatures 3000 ≤ 5000 in `[2700, 6500]`. -/
theorem compute_brightnesses_monotone_witness :
    (1 ≤ (2700 : ℤ)) ∧ (2700 : ℤ) < 6500 ∧ (2700 : ℤ) ≤ 3000 ∧ (3000 : ℤ) ≤ 5000 ∧
      (5000 : ℤ) ≤ 6500 ∧ (1 : ℤ) ≤ 200 ∧ (200 : ℤ) ≤ 255 ∧
      miredOf 6500 ≠ miredOf 2700 ∧
      (∀ wb1 cb1 wb2 cb2,
        BrightnessCalculator.compute_brightnesses ⟨2700, 6500, 3000, 200, .MIXED⟩ =
          some (wb1, cb1) →
        BrightnessCalculator.compute_brightnesses ⟨2700, 6500, 5000, 200, .MIXED⟩ =
          some (wb2, cb2) → cb1 ≤ cb2 ∧ wb2 ≤ wb1) :=
  ⟨by decide, by decide, by decide, by decide, by decide, by decide, by decide,
    by with_unfolding_all decide,
    compute_brightnesses_monotone .MIXED .MIXED (by decide) (by decide) (by decide)
      (by decide) (by decide) (by decide) (by decide) (by with_unfolding_all decide)⟩

/-- C7 counterexample: at the documented midpoint scenario
`(warm, cold, target, brightness) = (2700, 6500, 4600, 255)` the result is
`(75, 180)`: the warm and cold components differ by 105, far from "roughly
balanced" (not even within a quarter of the full scale of each other). -/
theorem midpoint_not_balanced_counterexample :
    BrightnessCalculator.compute_brightnesses ⟨2700, 6500, 4600, 255, .MIXED⟩ =
      some (75, 180) ∧ ¬|(75 : ℤ) - 180| ≤ 63 := by with_unfolding_all decide

/-- C7 (amended): the midpoint scenario returns `(warm, cold) = (75, 180)` —
cold-dominant rather than balanced (the kelvin midpoint 4600 lies on the cold
side of the mired midpoint), with each component below 255 and the pair
summing to the target brightness 255. -/
theorem midpoint_actual_split :
    BrightnessCalculator.compute_brightnesses ⟨2700, 6500, 4600, 255, .MIXED⟩ =
      some (75, 180) ∧ (75 : ℤ) < 180 ∧ (75 : ℤ) + 180 = 255 ∧ (75 : ℤ) < 255 ∧
      (180 : ℤ) < 255 := by with_unfolding_all decide

/-- C3 counterexample: at `(warm, cold) = (2700, 6500)`, target 4600 (strictly
between) and target brightness 1, the round trip returns 6500 — an error of
1900 K, nearly the whole reference range, not a small tolerance. -/
theorem roundtrip_counterexample :
    (2700 : ℤ) < 4600 ∧ (4600 : ℤ) < 6500 ∧ (1 : ℤ) ≤ 1 ∧ (1 : ℤ) ≤ 255 ∧
      roundTripTemperature 2700 6500 4600 1 = some 6500 ∧
      ¬|(6500 : ℤ) - 4600| ≤ 500 :=
  ⟨by decide, by decide, by decide, by decide, by with_unfolding_all rfl, by decide⟩

set_option maxRecDepth 6000 in
theorem roundTripChunk0 :
    ((List.range 475).all
      (fun k => roundTripWithin 2700 6500 255 53 (2701 + (k : ℤ)))) = true := by
  with_unfolding_all rfl

set_option maxRecDepth 6000 in
theorem roundTripChunk1 :
    ((List.range 475).all
      (fun k => roundTripWithin 2700 6500 255 53 (3176 + (k : ℤ)))) = true := by
  with_unfolding_all rfl

set_option maxRecDepth 6000 in
theorem roundTripChunk2 :
    ((List.range 475).all
      (fun k => roundTripWithin 2700 6500 255 53 (3651 + (k : ℤ)))) = true := by
  with_unfolding_all rfl

set_option maxRecDepth 6000 in
theorem roundTripChunk3 :
    ((List.range 475).all
      (fun k => roundTripWithin 2700 6500 255 53 (4126 + (k : ℤ)))) = true := by
  with_unfolding_all rfl

set_option maxRecDepth 6000 in
theorem roundTripChunk4 :
    ((List.range 475).all
      (fun k => roundTripWithin 2700 6500 255 53 (4601 + (k : ℤ)))) = true := by
  with_unfolding_all rfl

set_option maxRecDepth 6000 in
theorem roundTripChunk5 :
    ((List.range 475).all
      (fun k => roundTripWithin 2700 6500 255 53 (5076 + (k : ℤ)))) = true := by
  with_unfolding_all rfl

set_option maxRecDepth 6000 in
theorem roundTripChunk6 :
    ((List.range 475).all
      (fun k => roundTripWithin 2700 6500 255 53 (5551 + (k : ℤ)))) = true := by
  with_unfolding_all rfl

set_option maxRecDepth 6000 in
theorem roundTripChunk7 :
    ((List.range 475).all
      (fun k => roundTripWithin 2700 6500 255 53 (6026 + (k : ℤ)))) = true := by
  with_unfolding_all rfl

theorem roundTripChunk_spec (off : ℤ)
    (hall : ((List.range 475).all
      (fun k => roundTripWithin 2700 6500 255 53 (off + (k : ℤ)))) = true)
    {T : ℤ} (h1 : off ≤ T) (h2 : T < off + 475) :
    roundTripWithin 2700 6500 255 53 T = true := by
  rw [List.all_eq_true] at hall
  have hk : (T - off).toNat < 475 := by omega
  have hT := hall ((T - off).toNat) (List.mem_range.mpr hk)
  have he : off + (((T - off).toNat : ℕ) : ℤ) = T := by omega
  rw [he] at hT
  exact hT

/-- C3 (amended): the round trip is not accurate for all brightness values —
at target brightness 1 the error can reach 1900 K (see the counterexample) —
but at full target brightness 255 with the documented references
`(2700, 6500)`, for every target strictly between them the round trip
succeeds and recovers the target within 53 K (verified exhaustively).  The
clamp moreover keeps any round-trip result inside `[2700, 6500]`. -/
theorem roundtrip_recovers_target_at_full_brightness {T : ℤ}
    (h1 : 2700 < T) (h2 : T < 6500) :
    ∃ r, roundTripTemperature 2700 6500 T 255 = some r ∧ |r - T| ≤ 53 := by
  have hb : roundTripWithin 2700 6500 255 53 T = true := by
    rcases (by omega :
        (2701 ≤ T ∧ T < 3176) ∨ (3176 ≤ T ∧ T < 3651) ∨ (3651 ≤ T ∧ T < 4126) ∨
        (4126 ≤ T ∧ T < 4601) ∨ (4601 ≤ T ∧ T < 5076) ∨ (5076 ≤ T ∧ T < 5551) ∨
        (5551 ≤ T ∧ T < 6026) ∨ (6026 ≤ T ∧ T < 6501)) with
      h | h | h | h | h | h | h | h
    · exact roundTripChunk_spec 2701 roundTripChunk0 h.1 (by omega)
    · exact roundTripChunk_spec 3176 roundTripChunk1 h.1 (by omega)
    · exact roundTripChunk_spec 3651 roundTripChunk2 h.1 (by omega)
    · exact roundTripChunk_spec 4126 roundTripChunk3 h.1 (by omega)
    · exact roundTripChunk_spec 4601 roundTripChunk4 h.1 (by omega)
    · exact roundTripChunk_spec 5076 roundTripChunk5 h.1 (by omega)
    · exact roundTripChunk_spec 5551 roundTripChunk6 h.1 (by omega)
    · exact roundTripChunk_spec 6026 roundTripChunk7 h.1 (by omega)
  unfold roundTripWithin at hb
  cases heq : roundTripTemperature 2700 6500 T 255 with
  | none =>
    rw [heq] at hb
    simp at hb
  | some r =>
    rw [heq] at hb
    simp only [decide_eq_true_eq] at hb
    exact ⟨r, rfl, hb⟩

/-- Witness for the amended C3 at target 4000. -/
theorem roundtrip_recovers_target_witness :
    (2700 : ℤ) < 4000 ∧ (4000 : ℤ) < 6500 ∧
      ∃ r, roundTripTemperature 2700 6500 4000 255 = some r ∧ |r - 4000| ≤ 53 :=
  ⟨by decide, by decide,
    roundtrip_recovers_target_at_full_brightness (by decide) (by decide)⟩
